import Mathlib

/-!
Shallow embedding of the diode-physics web application
(src/hacksphere/app.py): the DiodePhysics model, the measure and sweep
services, and the mystery-game state.  Floating-point arithmetic is
modelled over the real numbers; numpy vectorized expressions are
modelled element-wise; the random noise of measure and the random
material pick of start_mystery are modelled as explicit parameters.
Attributes that the Python constructor may leave unassigned (Is, n for
an unrecognized material) are modelled as Option values, and a compute
call on such an object is modelled as returning none (the Python code
raises AttributeError there).
-/

namespace Hacksphere

noncomputable section

/-- Boltzmann constant, from app.py. -/
def BOLTZMANN_K : ℝ := 1.380649e-23

/-- Elementary charge, from app.py. -/
def ELECTRON_Q : ℝ := 1.60217663e-19

/-- numpy clip of x to the interval from lo to hi. -/
def clip (x lo hi : ℝ) : ℝ := min (max x lo) hi

/-- The thermal voltage kT/q computed by the constructor. -/
def vtOf (temp : ℝ) : ℝ := BOLTZMANN_K * (temp + 273.15) / ELECTRON_Q

/-- The state of a DiodePhysics instance after __init__: the always
assigned attributes temp_k, vt, breakdown, slope, and the two
attributes Is and n that are assigned only for recognized materials. -/
structure DiodePhysics where
  temp_k : ℝ
  vt : ℝ
  breakdown : ℝ
  slope : ℝ
  Is : Option ℝ
  n : Option ℝ

/-- DiodePhysics.__init__ from app.py: defaults breakdown = -50 and
slope = 10 are set first, then the material branch assigns Is, n and
overrides breakdown (and slope for Zener); an unrecognized material
leaves Is and n unassigned (none). -/
def DiodePhysics.init (material : String) (temp_c zener_v : ℝ) : DiodePhysics :=
  let temp_k := temp_c + 273.15
  let vt := BOLTZMANN_K * temp_k / ELECTRON_Q
  if material = "Si" then
    { temp_k := temp_k, vt := vt, breakdown := -50.0, slope := 10.0,
      Is := some (1e-12 * (2 : ℝ) ^ ((temp_c - 27) / 10.0)), n := some 1.5 }
  else if material = "Ge" then
    { temp_k := temp_k, vt := vt, breakdown := -20.0, slope := 10.0,
      Is := some (1e-6 * (2 : ℝ) ^ ((temp_c - 27) / 10.0)), n := some 1.0 }
  else if material = "RedLED" then
    { temp_k := temp_k, vt := vt, breakdown := -5.0, slope := 10.0,
      Is := some 1e-18, n := some 2.0 }
  else if material = "BlueLED" then
    { temp_k := temp_k, vt := vt, breakdown := -5.0, slope := 10.0,
      Is := some 1e-24, n := some 3.5 }
  else if material = "Zener" then
    { temp_k := temp_k, vt := vt, breakdown := -zener_v, slope := 0.5,
      Is := some (1e-12 * (2 : ℝ) ^ ((temp_c - 27) / 10.0)), n := some 1.5 }
  else
    { temp_k := temp_k, vt := vt, breakdown := -50.0, slope := 10.0,
      Is := none, n := none }

/-- DiodePhysics.compute from app.py: both the Shockley branch and the
breakdown branch are computed, then one is selected per element by
np.where(v < breakdown, ...).  If Is or n was never assigned the call
fails (none), modelling the AttributeError of the Python code. -/
def DiodePhysics.compute (d : DiodePhysics) (voltage : ℝ) : Option ℝ :=
  match d.Is, d.n with
  | some i0, some n0 =>
    let exponent := clip (voltage / (n0 * d.vt)) (-50) 50
    let i_shockley := i0 * (Real.exp exponent - 1)
    let i_breakdown := -d.slope * (|voltage| - |d.breakdown|)
    some (if voltage < d.breakdown then i_breakdown else i_shockley)
  | _, _ => none

/-- The five material strings that DiodePhysics.__init__ recognizes. -/
def recognizedMaterial (mat : String) : Prop :=
  mat = "Si" ∨ mat = "Ge" ∨ mat = "RedLED" ∨ mat = "BlueLED" ∨ mat = "Zener"

instance (mat : String) : Decidable (recognizedMaterial mat) := by
  unfold recognizedMaterial
  exact inferInstance

/-- The evaluate formula exactly as the specification words it:
exponent clipped to the interval from -50 to 50, Shockley current,
linear breakdown current, and selection by voltage < breakdownVoltage. -/
def specEvaluate (saturationCurrent n breakdownVoltage slope thermalVoltage voltage : ℝ) : ℝ :=
  let exponent := clip (voltage / (n * thermalVoltage)) (-50) 50
  let shockleyCurrent := saturationCurrent * (Real.exp exponent - 1)
  let breakdownCurrent := -slope * (|voltage| - |breakdownVoltage|)
  if voltage < breakdownVoltage then breakdownCurrent else shockleyCurrent

/-- The JSON object returned by the measure endpoint. -/
structure MeasurementResult where
  voltage : ℝ
  current : ℝ
  power : ℝ
  status : String
  saturation : ℝ
  breakdown : ℝ

/-- The measure endpoint of app.py.  The multiplicative instrument
noise np.random.uniform(-0.005, 0.005) is modelled as the explicit
parameter noise.  The zener voltage takes its default 5.1 since the
endpoint constructs DiodePhysics(mat, temp). -/
def measure (mat : String) (temp v noise : ℝ) : Option MeasurementResult :=
  match (DiodePhysics.init mat temp 5.1).compute v, (DiodePhysics.init mat temp 5.1).Is with
  | some i0, some satC =>
    let final_i := i0 + i0 * noise
    let power := v * final_i
    let limit : ℝ := if mat = "RedLED" ∨ mat = "BlueLED" then 0.05 else 0.5
    some { voltage := v, current := final_i, power := power,
           status := if |power| ≤ limit then "OPTIMAL" else "BURNT (Overheat)",
           saturation := satC, breakdown := (DiodePhysics.init mat temp 5.1).breakdown }
  | _, _ => none

/-- Element k of np.linspace(startV, endV, num): startV plus k steps of
size (endV - startV) / (num - 1). -/
def linVal (startV endV : ℝ) (num k : ℕ) : ℝ :=
  startV + (k : ℝ) * ((endV - startV) / ((num : ℝ) - 1))

/-- np.linspace(startV, endV, num) as a list. -/
def linspace (startV endV : ℝ) (num : ℕ) : List ℝ :=
  (List.range num).map (linVal startV endV num)

/-- Index of the first minimum of a list of reals, as np.argmin
returns it (first occurrence wins on ties; 0 on the empty list). -/
def argminIdx : List ℝ → ℕ
  | [] => 0
  | x :: xs =>
    if xs ≠ [] ∧ xs.getD (argminIdx xs) 0 < x then argminIdx xs + 1 else 0

/-- Python round(x, 3): x rounded to three decimal places. -/
def round3 (x : ℝ) : ℝ := ((round (x * 1000) : ℤ) : ℝ) / 1000

/-- One entry of the data array of the sweep endpoint. -/
structure SweepSample where
  v : ℝ
  i : ℝ
  p : ℝ

/-- The saddle (knee) object of the sweep endpoint. -/
structure SaddlePoint where
  v : ℝ
  i : ℝ

/-- The JSON object returned by the sweep endpoint. -/
structure SweepResult where
  data : List SweepSample
  saddle : SaddlePoint
  saturation : ℝ
  breakdown : ℝ

/-- The 300 sweep voltages: np.linspace(startV, endV, 300). -/
def sweepVoltages (startV endV : ℝ) : List ℝ := linspace startV endV 300

/-- The currents of the sweep: sim.compute applied element-wise to the
sweep voltages (none is impossible on the success path, so getD 0
extracts the value). -/
def sweepCurrents (mat : String) (startV endV temp : ℝ) : List ℝ :=
  (sweepVoltages startV endV).map fun v => ((DiodePhysics.init mat temp 5.1).compute v).getD 0

/-- The saddle-search threshold: 0.001, overridden to 0.0005 for Ge. -/
def threshold (mat : String) : ℝ := if mat = "Ge" then 0.0005 else 0.001

/-- np.abs(currents - threshold).argmin() of the sweep endpoint. -/
def saddleIdx (mat : String) (startV endV temp : ℝ) : ℕ :=
  argminIdx ((sweepCurrents mat startV endV temp).map fun i => |i - threshold mat|)

/-- The sweep endpoint of app.py.  The zipped numpy arrays voltages,
currents and powers are modelled index-wise: entry k of the data array
is built from voltage k and current k, with power = voltage * current.
A material whose DiodePhysics lacks Is or n makes the element-wise
compute fail, modelled as none. -/
def sweep (mat : String) (startV endV temp : ℝ) : Option SweepResult :=
  match (DiodePhysics.init mat temp 5.1).Is, (DiodePhysics.init mat temp 5.1).n with
  | some satC, some _ =>
    let voltages := sweepVoltages startV endV
    let currents := sweepCurrents mat startV endV temp
    let idx := saddleIdx mat startV endV temp
    some { data := (List.range 300).map fun k =>
             { v := round3 (voltages.getD k 0),
               i := currents.getD k 0,
               p := voltages.getD k 0 * currents.getD k 0 },
           saddle := { v := round3 (voltages.getD idx 0), i := currents.getD idx 0 },
           saturation := satC,
           breakdown := (DiodePhysics.init mat temp 5.1).breakdown }
  | _, _ => none

/-- The five options of the mystery game in app.py. -/
def mysteryOptions : List String := ["Si", "Ge", "RedLED", "BlueLED", "Zener"]

/-- The module-level variable current_mystery starts as None. -/
def initialMystery : Option String := none

/-- start_mystery from app.py: random.choice(options) is modelled by
the explicit parameter choice; the global slot is overwritten. -/
def start_mystery (choice : String) : Option String := some choice

/-- The JSON object returned by the submit_guess endpoint. -/
structure GuessResponse where
  result : String
  actual : Option String

/-- submit_guess from app.py: reads the global slot, compares it with
the guess from the request (absent guess is none), and returns the
slot unchanged together with the response. -/
def submit_guess (state guess : Option String) : Option String × GuessResponse :=
  (state,
   if guess = state then { result := "CORRECT", actual := state }
   else { result := "WRONG", actual := state })

end

/-! Helper lemmas about the constructor and compute. -/

lemma init_Si (temp zv : ℝ) :
    DiodePhysics.init "Si" temp zv =
      { temp_k := temp + 273.15, vt := vtOf temp, breakdown := -50, slope := 10,
        Is := some (1e-12 * (2 : ℝ) ^ ((temp - 27) / 10)), n := some 1.5 } := by
  simp [DiodePhysics.init, vtOf]
  norm_num

lemma init_Ge (temp zv : ℝ) :
    DiodePhysics.init "Ge" temp zv =
      { temp_k := temp + 273.15, vt := vtOf temp, breakdown := -20, slope := 10,
        Is := some (1e-6 * (2 : ℝ) ^ ((temp - 27) / 10)), n := some 1 } := by
  simp [DiodePhysics.init, vtOf]
  norm_num

lemma init_RedLED (temp zv : ℝ) :
    DiodePhysics.init "RedLED" temp zv =
      { temp_k := temp + 273.15, vt := vtOf temp, breakdown := -5, slope := 10,
        Is := some 1e-18, n := some 2 } := by
  simp [DiodePhysics.init, vtOf]
  norm_num

lemma init_BlueLED (temp zv : ℝ) :
    DiodePhysics.init "BlueLED" temp zv =
      { temp_k := temp + 273.15, vt := vtOf temp, breakdown := -5, slope := 10,
        Is := some 1e-24, n := some 3.5 } := by
  simp [DiodePhysics.init, vtOf]
  norm_num

lemma init_Zener (temp zv : ℝ) :
    DiodePhysics.init "Zener" temp zv =
      { temp_k := temp + 273.15, vt := vtOf temp, breakdown := -zv, slope := 0.5,
        Is := some (1e-12 * (2 : ℝ) ^ ((temp - 27) / 10)), n := some 1.5 } := by
  simp [DiodePhysics.init, vtOf]
  norm_num

lemma init_unknown (mat : String) (temp zv : ℝ) (h : ¬ recognizedMaterial mat) :
    DiodePhysics.init mat temp zv =
      { temp_k := temp + 273.15, vt := vtOf temp, breakdown := -50, slope := 10,
        Is := none, n := none } := by
  unfold recognizedMaterial at h
  push_neg at h
  obtain ⟨h1, h2, h3, h4, h5⟩ := h
  simp [DiodePhysics.init, vtOf, h1, h2, h3, h4, h5]
  norm_num

lemma compute_some (d : DiodePhysics) (i0 n0 : ℝ) (hI : d.Is = some i0)
    (hn : d.n = some n0) (v : ℝ) :
    d.compute v = some (if v < d.breakdown then -d.slope * (|v| - |d.breakdown|)
      else i0 * (Real.exp (clip (v / (n0 * d.vt)) (-50) 50) - 1)) := by
  unfold DiodePhysics.compute
  rw [hI, hn]

lemma compute_none (d : DiodePhysics) (hI : d.Is = none) (v : ℝ) :
    d.compute v = none := by
  unfold DiodePhysics.compute
  rw [hI]

/-- Every recognized material receives some Is and some n. -/
lemma init_params_of_recognized (mat : String) (temp zv : ℝ)
    (h : recognizedMaterial mat) :
    ∃ a b, (DiodePhysics.init mat temp zv).Is = some a ∧
      (DiodePhysics.init mat temp zv).n = some b := by
  rcases h with rfl | rfl | rfl | rfl | rfl
  · exact ⟨_, _, by rw [init_Si], by rw [init_Si]⟩
  · exact ⟨_, _, by rw [init_Ge], by rw [init_Ge]⟩
  · exact ⟨_, _, by rw [init_RedLED], by rw [init_RedLED]⟩
  · exact ⟨_, _, by rw [init_BlueLED], by rw [init_BlueLED]⟩
  · exact ⟨_, _, by rw [init_Zener], by rw [init_Zener]⟩

/-! Lemmas about argminIdx (the model of np.argmin) and linspace. -/

lemma getD_range_map {α : Type} (f : ℕ → α) (num k : ℕ) (d : α) (hk : k < num) :
    ((List.range num).map f).getD k d = f k := by
  rw [List.getD_eq_getElem?_getD, List.getElem?_map, List.getElem?_range hk]
  rfl

lemma length_range_map {α : Type} (f : ℕ → α) (num : ℕ) :
    ((List.range num).map f).length = num := by
  simp

lemma argminIdx_lt_length (l : List ℝ) (hl : l ≠ []) : argminIdx l < l.length := by
  induction l with
  | nil => exact absurd rfl hl
  | cons x xs ih =>
    rw [argminIdx]
    split
    · next h => exact Nat.succ_lt_succ (ih h.1)
    · exact Nat.succ_pos _

lemma argminIdx_getD_le (l : List ℝ) : ∀ j, j < l.length →
    l.getD (argminIdx l) 0 ≤ l.getD j 0 := by
  induction l with
  | nil => intro j hj; simp at hj
  | cons x xs ih =>
    intro j hj
    rw [argminIdx]
    split
    · next h =>
      rcases j with _ | j
      · simpa using le_of_lt h.2
      · simpa using ih j (by simpa using hj)
    · next h =>
      push_neg at h
      rcases j with _ | j
      · simp
      · have hxs : xs ≠ [] := by
          intro he
          rw [he] at hj
          simp at hj
        have hj' : j < xs.length := by simpa using hj
        simpa using le_trans (h hxs) (ih j hj')

lemma argminIdx_getD_lt_of_lt (l : List ℝ) : ∀ j, j < argminIdx l →
    l.getD (argminIdx l) 0 < l.getD j 0 := by
  induction l with
  | nil => intro j hj; simp [argminIdx] at hj
  | cons x xs ih =>
    intro j hj
    by_cases hc : xs ≠ [] ∧ xs.getD (argminIdx xs) 0 < x
    · rw [argminIdx, if_pos hc] at hj ⊢
      rcases j with _ | j
      · simpa using hc.2
      · have hj' : j < argminIdx xs := Nat.lt_of_succ_lt_succ hj
        simpa using ih j hj'
    · rw [argminIdx, if_neg hc] at hj
      exact absurd hj (Nat.not_lt_zero _)

lemma linVal_zero (startV endV : ℝ) (num : ℕ) : linVal startV endV num 0 = startV := by
  simp [linVal]

lemma linVal_299 (startV endV : ℝ) : linVal startV endV 300 299 = endV := by
  unfold linVal
  norm_num
  field_simp

lemma linVal_step (startV endV : ℝ) (k : ℕ) :
    linVal startV endV 300 (k + 1) - linVal startV endV 300 k = (endV - startV) / 299 := by
  unfold linVal
  push_cast
  ring_nf

lemma linVal_strictMono (startV endV : ℝ) (h : startV < endV) (j k : ℕ) (hjk : j < k) :
    linVal startV endV 300 j < linVal startV endV 300 k := by
  unfold linVal
  have hstep : 0 < (endV - startV) / ((300 : ℝ) - 1) := by
    apply div_pos (by linarith) (by norm_num)
  have hcast : (j : ℝ) < (k : ℝ) := by exact_mod_cast hjk
  nlinarith

/-! Order and sign facts about clip, the thermal voltage and the
Shockley branch. -/

lemma clip_mono {x y : ℝ} (lo hi : ℝ) (h : x ≤ y) : clip x lo hi ≤ clip y lo hi :=
  min_le_min (max_le_max h le_rfl) le_rfl

lemma clip_nonpos {x : ℝ} (hx : x ≤ 0) : clip x (-50) 50 ≤ 0 := by
  unfold clip
  exact le_trans (min_le_left _ _) (max_le hx (by norm_num))

lemma vtOf_pos (temp : ℝ) (h : -273.15 < temp) : 0 < vtOf temp := by
  unfold vtOf BOLTZMANN_K ELECTRON_Q
  have h1 : (0 : ℝ) < temp + 273.15 := by linarith
  positivity

/-- The Shockley branch is monotone in voltage when the saturation
current is nonnegative and n times the thermal voltage is positive. -/
lemma shockley_mono (satC nvt a b : ℝ) (hsat : 0 ≤ satC) (hnvt : 0 < nvt) (hab : a ≤ b) :
    satC * (Real.exp (clip (a / nvt) (-50) 50) - 1) ≤
      satC * (Real.exp (clip (b / nvt) (-50) 50) - 1) := by
  apply mul_le_mul_of_nonneg_left _ hsat
  apply sub_le_sub_right
  exact Real.exp_le_exp.mpr (clip_mono _ _ ((div_le_div_iff_of_pos_right hnvt).mpr hab))

/-- At a nonpositive voltage argument the Shockley branch differs from
zero by at most the saturation current. -/
lemma shockley_abs_le (satC nvt bd : ℝ) (hsat : 0 ≤ satC) (hbd : bd ≤ 0) (hnvt : 0 ≤ nvt) :
    |satC * (Real.exp (clip (bd / nvt) (-50) 50) - 1)| ≤ satC := by
  have harg : bd / nvt ≤ 0 := div_nonpos_iff.mpr (Or.inr ⟨hbd, hnvt⟩)
  have hexp : Real.exp (clip (bd / nvt) (-50) 50) ≤ 1 := by
    rw [show (1 : ℝ) = Real.exp 0 from Real.exp_zero.symm]
    exact Real.exp_le_exp.mpr (clip_nonpos harg)
  have hpos : 0 < Real.exp (clip (bd / nvt) (-50) 50) := Real.exp_pos _
  rw [abs_mul, abs_of_nonneg hsat,
    abs_of_nonpos (by linarith : Real.exp (clip (bd / nvt) (-50) 50) - 1 ≤ 0)]
  nlinarith

/-! Unfolding lemmas for the sweep service. -/

lemma sweepVoltages_getD (startV endV : ℝ) (k : ℕ) (hk : k < 300) :
    (sweepVoltages startV endV).getD k 0 = linVal startV endV 300 k := by
  unfold sweepVoltages linspace
  exact getD_range_map _ _ _ _ hk

lemma sweepCurrents_getD (mat : String) (startV endV temp : ℝ) (k : ℕ) (hk : k < 300) :
    (sweepCurrents mat startV endV temp).getD k 0 =
      ((DiodePhysics.init mat temp 5.1).compute (linVal startV endV 300 k)).getD 0 := by
  unfold sweepCurrents sweepVoltages linspace
  rw [List.map_map]
  exact getD_range_map _ _ _ _ hk

lemma sweepCurrents_length (mat : String) (startV endV temp : ℝ) :
    (sweepCurrents mat startV endV temp).length = 300 := by
  simp [sweepCurrents, sweepVoltages, linspace]

lemma getD_map_of_lt {α β : Type} (f : α → β) (l : List α) (j : ℕ) (hj : j < l.length)
    (d : β) (e : α) : (l.map f).getD j d = f (l.getD j e) := by
  rw [List.getD_eq_getElem?_getD, List.getElem?_map, List.getD_eq_getElem?_getD,
    List.getElem?_eq_getElem hj]
  rfl

/-- The sweep endpoint on a material whose parameters are assigned. -/
lemma sweep_eq_some (mat : String) (startV endV temp : ℝ) (a b : ℝ)
    (ha : (DiodePhysics.init mat temp 5.1).Is = some a)
    (hb : (DiodePhysics.init mat temp 5.1).n = some b) :
    sweep mat startV endV temp =
      some { data := (List.range 300).map fun k =>
               { v := round3 ((sweepVoltages startV endV).getD k 0),
                 i := (sweepCurrents mat startV endV temp).getD k 0,
                 p := (sweepVoltages startV endV).getD k 0 *
                      (sweepCurrents mat startV endV temp).getD k 0 },
             saddle := { v := round3 ((sweepVoltages startV endV).getD
                           (saddleIdx mat startV endV temp) 0),
                         i := (sweepCurrents mat startV endV temp).getD
                           (saddleIdx mat startV endV temp) 0 },
             saturation := a,
             breakdown := (DiodePhysics.init mat temp 5.1).breakdown } := by
  unfold sweep
  rw [ha, hb]

lemma clip_eq_self {x lo hi : ℝ} (hlo : lo ≤ x) (hhi : x ≤ hi) : clip x lo hi = x := by
  unfold clip
  rw [max_eq_left hlo, min_eq_left hhi]

lemma vtOf_nonneg (temp : ℝ) (h : -273.15 ≤ temp) : 0 ≤ vtOf temp := by
  unfold vtOf BOLTZMANN_K ELECTRON_Q
  apply div_nonneg (mul_nonneg (by norm_num) (by linarith)) (by norm_num)

/-! Claim theorems. -/

/-- C1: for every recognized material, temperature, and voltage v,
evaluate returns -slope × (|v| − |breakdownVoltage|) when
v < breakdownVoltage, and otherwise saturationCurrent ×
(exp(clip(v / (n × thermalVoltage), -50, 50)) − 1), with the exponent
always clipped to the interval from -50 to 50 before exponentiation;
specEvaluate is that formula stated word for word from the spec. -/
theorem C1_evaluate_matches_spec (mat : String) (temp v : ℝ)
    (hmat : recognizedMaterial mat) :
    ((DiodePhysics.init mat temp 5.1).compute v).isSome = true ∧
    ∀ c, (DiodePhysics.init mat temp 5.1).compute v = some c →
      c = specEvaluate ((DiodePhysics.init mat temp 5.1).Is.getD 0)
            ((DiodePhysics.init mat temp 5.1).n.getD 0)
            (DiodePhysics.init mat temp 5.1).breakdown
            (DiodePhysics.init mat temp 5.1).slope
            (DiodePhysics.init mat temp 5.1).vt v := by
  obtain ⟨a, b, ha, hb⟩ := init_params_of_recognized mat temp 5.1 hmat
  have hcomp := compute_some _ a b ha hb v
  refine ⟨by rw [hcomp]; rfl, fun c hc => ?_⟩
  rw [hcomp] at hc
  injection hc with hc
  rw [← hc, ha, hb]
  unfold specEvaluate
  simp only [Option.getD_some]

/-- Witness for C1 at material Si, temperature 27, voltage 0.7. -/
theorem C1_witness :
    recognizedMaterial "Si" ∧
    (((DiodePhysics.init "Si" 27 5.1).compute 0.7).isSome = true ∧
     ∀ c, (DiodePhysics.init "Si" 27 5.1).compute 0.7 = some c →
       c = specEvaluate ((DiodePhysics.init "Si" 27 5.1).Is.getD 0)
             ((DiodePhysics.init "Si" 27 5.1).n.getD 0)
             (DiodePhysics.init "Si" 27 5.1).breakdown
             (DiodePhysics.init "Si" 27 5.1).slope
             (DiodePhysics.init "Si" 27 5.1).vt 0.7) :=
  ⟨by decide, C1_evaluate_matches_spec "Si" 27 0.7 (by decide)⟩

/-- C4: the claim asks deriveParameters to fail with InvalidMaterial on
an unrecognized material; the code instead returns normally, leaving
Is and n unassigned and keeping the default breakdown -50 and slope 10,
so a later compute fails with an attribute error instead.  This
theorem evaluates the code at the failing input material
"Plutonium". -/
theorem C4_unknown_material_is_silently_accepted :
    (DiodePhysics.init "Plutonium" 27 5.1).Is = none ∧
    (DiodePhysics.init "Plutonium" 27 5.1).n = none ∧
    (DiodePhysics.init "Plutonium" 27 5.1).breakdown = -50 ∧
    (DiodePhysics.init "Plutonium" 27 5.1).slope = 10 ∧
    ∀ v, (DiodePhysics.init "Plutonium" 27 5.1).compute v = none := by
  rw [init_unknown "Plutonium" 27 5.1 (by decide)]
  exact ⟨rfl, rfl, rfl, rfl, fun v => compute_none _ rfl v⟩

/-- C8: the claim asks submitGuess before any startMystery to fail with
NoActiveGame; the code instead compares the guess against the unset
slot and returns a normal comparison response, revealing actual = None.
This theorem evaluates the code at the failing input: a guess of Si
with the initial (unset) mystery slot. -/
theorem C8_guess_before_start_returns_comparison :
    submit_guess initialMystery (some "Si") =
      (none, { result := "WRONG", actual := none }) := by
  rfl

/-- C9: for every stored mystery material m and every guess g,
submitGuess returns CORRECT exactly when g equals m and WRONG
otherwise, always reveals actual = m, and leaves the mystery slot
unchanged. -/
theorem C9_submit_guess_correctness (m : String) (g : Option String) :
    (submit_guess (some m) g).1 = some m ∧
    (submit_guess (some m) g).2.actual = some m ∧
    ((submit_guess (some m) g).2.result = "CORRECT" ↔ g = some m) ∧
    ((submit_guess (some m) g).2.result = "WRONG" ↔ g ≠ some m) := by
  by_cases hg : g = some m
  · simp [submit_guess, hg]
  · simp [submit_guess, hg]

/-- C10: for every material outside the five recognized ones, the
constructor assigns only temp_k, vt, breakdown and slope (with the
default values -50 and 10 for the latter two), never assigns Is or n,
and every subsequent compute call fails. -/
theorem C10_unknown_material_unusable (mat : String) (temp zv : ℝ)
    (h : ¬ recognizedMaterial mat) :
    (DiodePhysics.init mat temp zv).temp_k = temp + 273.15 ∧
    (DiodePhysics.init mat temp zv).vt = vtOf temp ∧
    (DiodePhysics.init mat temp zv).breakdown = -50 ∧
    (DiodePhysics.init mat temp zv).slope = 10 ∧
    (DiodePhysics.init mat temp zv).Is = none ∧
    (DiodePhysics.init mat temp zv).n = none ∧
    ∀ v, (DiodePhysics.init mat temp zv).compute v = none := by
  rw [init_unknown mat temp zv h]
  exact ⟨rfl, rfl, rfl, rfl, rfl, rfl, fun v => compute_none _ rfl v⟩

/-- Witness for C10 at the unrecognized material GaAs. -/
theorem C10_witness :
    ¬ recognizedMaterial "GaAs" ∧
    ((DiodePhysics.init "GaAs" 27 5.1).temp_k = 27 + 273.15 ∧
     (DiodePhysics.init "GaAs" 27 5.1).vt = vtOf 27 ∧
     (DiodePhysics.init "GaAs" 27 5.1).breakdown = -50 ∧
     (DiodePhysics.init "GaAs" 27 5.1).slope = 10 ∧
     (DiodePhysics.init "GaAs" 27 5.1).Is = none ∧
     (DiodePhysics.init "GaAs" 27 5.1).n = none ∧
     ∀ v, (DiodePhysics.init "GaAs" 27 5.1).compute v = none) :=
  ⟨by decide, C10_unknown_material_unusable "GaAs" 27 5.1 (by decide)⟩

/-- C5: a measure call reports OPTIMAL exactly when the absolute power
(voltage times noisy current) stays within the limit, which is 0.05
for RedLED and BlueLED and 0.5 for every other material, and reports
BURNT (Overheat) exactly otherwise.  The noise value is arbitrary. -/
theorem C5_measure_status (mat : String) (temp v noise : ℝ)
    (hmat : recognizedMaterial mat) :
    (measure mat temp v noise).isSome = true ∧
    ∀ r, measure mat temp v noise = some r →
      (r.power = r.voltage * r.current ∧
       (r.status = "OPTIMAL" ↔
         |r.power| ≤ (if mat = "RedLED" ∨ mat = "BlueLED" then (0.05 : ℝ) else 0.5)) ∧
       (r.status = "BURNT (Overheat)" ↔
         ¬ |r.power| ≤ (if mat = "RedLED" ∨ mat = "BlueLED" then (0.05 : ℝ) else 0.5))) := by
  obtain ⟨a, b, ha, hb⟩ := init_params_of_recognized mat temp 5.1 hmat
  have hcomp := compute_some _ a b ha hb v
  unfold measure
  rw [hcomp, ha]
  refine ⟨rfl, fun r hr => ?_⟩
  injection hr with hr
  rw [← hr]
  refine ⟨rfl, ?_, ?_⟩
  · by_cases hle : |v * ((if v < (DiodePhysics.init mat temp 5.1).breakdown then
        -(DiodePhysics.init mat temp 5.1).slope *
          (|v| - |(DiodePhysics.init mat temp 5.1).breakdown|)
        else a * (Real.exp (clip (v / (b * (DiodePhysics.init mat temp 5.1).vt)) (-50) 50) - 1)) +
        (if v < (DiodePhysics.init mat temp 5.1).breakdown then
        -(DiodePhysics.init mat temp 5.1).slope *
          (|v| - |(DiodePhysics.init mat temp 5.1).breakdown|)
        else a * (Real.exp (clip (v / (b * (DiodePhysics.init mat temp 5.1).vt)) (-50) 50) - 1)) * noise)| ≤
        (if mat = "RedLED" ∨ mat = "BlueLED" then (0.05 : ℝ) else 0.5)
    · simp [hle]
    · simp [hle]
  · by_cases hle : |v * ((if v < (DiodePhysics.init mat temp 5.1).breakdown then
        -(DiodePhysics.init mat temp 5.1).slope *
          (|v| - |(DiodePhysics.init mat temp 5.1).breakdown|)
        else a * (Real.exp (clip (v / (b * (DiodePhysics.init mat temp 5.1).vt)) (-50) 50) - 1)) +
        (if v < (DiodePhysics.init mat temp 5.1).breakdown then
        -(DiodePhysics.init mat temp 5.1).slope *
          (|v| - |(DiodePhysics.init mat temp 5.1).breakdown|)
        else a * (Real.exp (clip (v / (b * (DiodePhysics.init mat temp 5.1).vt)) (-50) 50) - 1)) * noise)| ≤
        (if mat = "RedLED" ∨ mat = "BlueLED" then (0.05 : ℝ) else 0.5)
    · simp [hle]
    · simp [hle]

/-- Witness for C5 at material RedLED, temperature 27, voltage 0,
noise 0. -/
theorem C5_witness :
    recognizedMaterial "RedLED" ∧
    ((measure "RedLED" 27 0 0).isSome = true ∧
     ∀ r, measure "RedLED" 27 0 0 = some r →
       (r.power = r.voltage * r.current ∧
        (r.status = "OPTIMAL" ↔
          |r.power| ≤ (if "RedLED" = "RedLED" ∨ "RedLED" = "BlueLED" then (0.05 : ℝ) else 0.5)) ∧
        (r.status = "BURNT (Overheat)" ↔
          ¬ |r.power| ≤ (if "RedLED" = "RedLED" ∨ "RedLED" = "BlueLED" then (0.05 : ℝ) else 0.5)))) :=
  ⟨by decide, C5_measure_status "RedLED" 27 0 0 (by decide)⟩

/-- C2: for every recognized material and start < end, sweep returns
exactly 300 samples taken at voltages evenly spaced across the range,
including both endpoints and strictly ascending; the current of each
sample is the evaluate value (no noise) at its voltage, the power is
voltage times current, and the stored v field is the voltage rounded
to three decimals. -/
theorem C2_sweep_samples (mat : String) (startV endV temp : ℝ)
    (hmat : recognizedMaterial mat) (hlt : startV < endV) :
    (sweep mat startV endV temp).isSome = true ∧
    ∀ r, sweep mat startV endV temp = some r →
      (r.data.length = 300 ∧
       (∀ k, k < 300 → r.data.getD k { v := 0, i := 0, p := 0 } =
         { v := round3 (linVal startV endV 300 k),
           i := ((DiodePhysics.init mat temp 5.1).compute (linVal startV endV 300 k)).getD 0,
           p := linVal startV endV 300 k *
                ((DiodePhysics.init mat temp 5.1).compute (linVal startV endV 300 k)).getD 0 }) ∧
       linVal startV endV 300 0 = startV ∧
       linVal startV endV 300 299 = endV ∧
       (∀ k, k < 299 → linVal startV endV 300 (k + 1) - linVal startV endV 300 k =
         (endV - startV) / 299) ∧
       (∀ j k, j < k → k < 300 → linVal startV endV 300 j < linVal startV endV 300 k)) := by
  obtain ⟨a, b, ha, hb⟩ := init_params_of_recognized mat temp 5.1 hmat
  have hs := sweep_eq_some mat startV endV temp a b ha hb
  refine ⟨by rw [hs]; rfl, fun r hr => ?_⟩
  rw [hs] at hr
  injection hr with hr
  rw [← hr]
  refine ⟨by simp, fun k hk => ?_, linVal_zero startV endV 300,
    linVal_299 startV endV, fun k _ => linVal_step startV endV k,
    fun j k hjk hk => linVal_strictMono startV endV hlt j k hjk⟩
  rw [getD_range_map _ _ _ _ hk, sweepVoltages_getD startV endV k hk,
    sweepCurrents_getD mat startV endV temp k hk]

/-- Witness for C2 at material Si and the default range -2 to 1.5. -/
theorem C2_witness :
    recognizedMaterial "Si" ∧ (-2 : ℝ) < 1.5 ∧
    ((sweep "Si" (-2) 1.5 27).isSome = true ∧
     ∀ r, sweep "Si" (-2) 1.5 27 = some r →
       (r.data.length = 300 ∧
        (∀ k, k < 300 → r.data.getD k { v := 0, i := 0, p := 0 } =
          { v := round3 (linVal (-2) 1.5 300 k),
            i := ((DiodePhysics.init "Si" 27 5.1).compute (linVal (-2) 1.5 300 k)).getD 0,
            p := linVal (-2) 1.5 300 k *
                 ((DiodePhysics.init "Si" 27 5.1).compute (linVal (-2) 1.5 300 k)).getD 0 }) ∧
        linVal (-2) 1.5 300 0 = -2 ∧
        linVal (-2) 1.5 300 299 = 1.5 ∧
        (∀ k, k < 299 → linVal (-2) 1.5 300 (k + 1) - linVal (-2) 1.5 300 k =
          (1.5 - -2) / 299) ∧
        (∀ j k, j < k → k < 300 → linVal (-2) 1.5 300 j < linVal (-2) 1.5 300 k))) :=
  ⟨by decide, by norm_num, C2_sweep_samples "Si" (-2) 1.5 27 (by decide) (by norm_num)⟩

/-- C3: the saddle point returned by sweep is the sample whose current
is closest in absolute difference to the material threshold, 0.0005
for Ge and 0.001 for every other material, the first such sample in
sweep order winning ties. -/
theorem C3_saddle_is_first_minimum (mat : String) (startV endV temp : ℝ)
    (hmat : recognizedMaterial mat) :
    (sweep mat startV endV temp).isSome = true ∧
    threshold mat = (if mat = "Ge" then (0.0005 : ℝ) else 0.001) ∧
    ∀ r, sweep mat startV endV temp = some r →
      (saddleIdx mat startV endV temp < 300 ∧
       r.saddle.i = (sweepCurrents mat startV endV temp).getD
         (saddleIdx mat startV endV temp) 0 ∧
       r.saddle.v = round3 (linVal startV endV 300 (saddleIdx mat startV endV temp)) ∧
       (∀ j, j < 300 → (r.data.getD j { v := 0, i := 0, p := 0 }).i =
         (sweepCurrents mat startV endV temp).getD j 0) ∧
       (∀ j, j < 300 → |r.saddle.i - threshold mat| ≤
         |(sweepCurrents mat startV endV temp).getD j 0 - threshold mat|) ∧
       (∀ j, j < saddleIdx mat startV endV temp → |r.saddle.i - threshold mat| <
         |(sweepCurrents mat startV endV temp).getD j 0 - threshold mat|)) := by
  obtain ⟨a, b, ha, hb⟩ := init_params_of_recognized mat temp 5.1 hmat
  have hs := sweep_eq_some mat startV endV temp a b ha hb
  have hlen : ((sweepCurrents mat startV endV temp).map
      fun i => |i - threshold mat|).length = 300 := by
    rw [List.length_map, sweepCurrents_length]
  have hidx : saddleIdx mat startV endV temp < 300 := by
    have hne : ((sweepCurrents mat startV endV temp).map
        fun i => |i - threshold mat|) ≠ [] := by
      intro he
      rw [he] at hlen
      simp at hlen
    have := argminIdx_lt_length _ hne
    rw [hlen] at this
    exact this
  have habs : ∀ j, j < 300 →
      ((sweepCurrents mat startV endV temp).map fun i => |i - threshold mat|).getD j 0 =
        |(sweepCurrents mat startV endV temp).getD j 0 - threshold mat| := by
    intro j hj
    exact getD_map_of_lt _ _ j (by rw [sweepCurrents_length]; exact hj) 0 0
  refine ⟨by rw [hs]; rfl, rfl, fun r hr => ?_⟩
  rw [hs] at hr
  injection hr with hr
  rw [← hr]
  refine ⟨hidx, rfl, ?_, fun j hj => ?_, fun j hj => ?_, fun j hj => ?_⟩
  · have := sweepVoltages_getD startV endV (saddleIdx mat startV endV temp) hidx
    simp only [this]
  · rw [getD_range_map _ _ _ _ hj]
  · have hle := argminIdx_getD_le ((sweepCurrents mat startV endV temp).map
      fun i => |i - threshold mat|) j (by rw [hlen]; exact hj)
    have hsid : argminIdx ((sweepCurrents mat startV endV temp).map
        fun i => |i - threshold mat|) = saddleIdx mat startV endV temp := rfl
    rw [hsid, habs j hj, habs _ hidx] at hle
    exact hle
  · have hlt := argminIdx_getD_lt_of_lt ((sweepCurrents mat startV endV temp).map
      fun i => |i - threshold mat|) j hj
    have hsid : argminIdx ((sweepCurrents mat startV endV temp).map
        fun i => |i - threshold mat|) = saddleIdx mat startV endV temp := rfl
    have hj300 : j < 300 := lt_trans hj hidx
    rw [hsid, habs j hj300, habs _ hidx] at hlt
    exact hlt

/-- Witness for C3 at material Ge over the range -1 to 1 (the scenario
of the specification: threshold 0.0005). -/
theorem C3_witness :
    recognizedMaterial "Ge" ∧
    ((sweep "Ge" (-1) 1 27).isSome = true ∧
     threshold "Ge" = (if "Ge" = "Ge" then (0.0005 : ℝ) else 0.001) ∧
     ∀ r, sweep "Ge" (-1) 1 27 = some r →
       (saddleIdx "Ge" (-1) 1 27 < 300 ∧
        r.saddle.i = (sweepCurrents "Ge" (-1) 1 27).getD (saddleIdx "Ge" (-1) 1 27) 0 ∧
        r.saddle.v = round3 (linVal (-1) 1 300 (saddleIdx "Ge" (-1) 1 27)) ∧
        (∀ j, j < 300 → (r.data.getD j { v := 0, i := 0, p := 0 }).i =
          (sweepCurrents "Ge" (-1) 1 27).getD j 0) ∧
        (∀ j, j < 300 → |r.saddle.i - threshold "Ge"| ≤
          |(sweepCurrents "Ge" (-1) 1 27).getD j 0 - threshold "Ge"|) ∧
        (∀ j, j < saddleIdx "Ge" (-1) 1 27 → |r.saddle.i - threshold "Ge"| <
          |(sweepCurrents "Ge" (-1) 1 27).getD j 0 - threshold "Ge"|))) :=
  ⟨by decide, C3_saddle_is_first_minimum "Ge" (-1) 1 27 (by decide)⟩

/-- C6 counterexample: at material Si, temperature 27, the boundary
voltage v = breakdownVoltage = -50 is NOT sent to the linear breakdown
branch: np.where selects the Shockley branch at equality, whose value
is strictly below the breakdown branch value 0, so the claim that
evaluate returns the breakdown branch value for all v ≤ breakdown is
false at v = -50. -/
theorem C6_counterexample :
    ((DiodePhysics.init "Si" 27 5.1).compute (-50)).getD 0 ≠
      -(DiodePhysics.init "Si" 27 5.1).slope *
        (|(-50 : ℝ)| - |(DiodePhysics.init "Si" 27 5.1).breakdown|) := by
  rw [init_Si]
  rw [compute_some _ (1e-12 * (2 : ℝ) ^ (((27 : ℝ) - 27) / 10)) 1.5 rfl rfl (-50)]
  simp only [Option.getD_some]
  rw [if_neg (lt_irrefl _)]
  have hvt : 0 < vtOf 27 := vtOf_pos 27 (by norm_num)
  have harg : (-50 : ℝ) / (1.5 * vtOf 27) < 0 :=
    div_neg_of_neg_of_pos (by norm_num) (by nlinarith)
  have hclip : clip ((-50 : ℝ) / (1.5 * vtOf 27)) (-50) 50 < 0 := by
    unfold clip
    exact lt_of_le_of_lt (min_le_left _ _) (max_lt harg (by norm_num))
  have hexp : Real.exp (clip ((-50 : ℝ) / (1.5 * vtOf 27)) (-50) 50) < 1 := by
    rw [show (1 : ℝ) = Real.exp 0 from Real.exp_zero.symm]
    exact Real.exp_lt_exp.mpr hclip
  have hIs : (0 : ℝ) < 1e-12 * (2 : ℝ) ^ (((27 : ℝ) - 27) / 10) := by positivity
  have hval : 1e-12 * (2 : ℝ) ^ (((27 : ℝ) - 27) / 10) *
      (Real.exp (clip ((-50 : ℝ) / (1.5 * vtOf 27)) (-50) 50) - 1) < 0 :=
    mul_neg_of_pos_of_neg hIs (by linarith)
  intro hcontra
  rw [hcontra] at hval
  norm_num at hval

/-- C6 amended: for every recognized material and temperature at least
-273.15, evaluate returns the linear breakdown branch value for every
v strictly below breakdownVoltage; at v = breakdownVoltage it returns
the Shockley branch value, which differs from the breakdown branch
value by at most the saturation current. -/
theorem C6_amended_boundary (mat : String) (temp v : ℝ)
    (hmat : recognizedMaterial mat) (htemp : -273.15 ≤ temp)
    (hv : v < (DiodePhysics.init mat temp 5.1).breakdown) :
    (DiodePhysics.init mat temp 5.1).compute v =
      some (-(DiodePhysics.init mat temp 5.1).slope *
        (|v| - |(DiodePhysics.init mat temp 5.1).breakdown|)) ∧
    |((DiodePhysics.init mat temp 5.1).compute
        (DiodePhysics.init mat temp 5.1).breakdown).getD 0 -
      (-(DiodePhysics.init mat temp 5.1).slope *
        (|(DiodePhysics.init mat temp 5.1).breakdown| -
         |(DiodePhysics.init mat temp 5.1).breakdown|))| ≤
      (DiodePhysics.init mat temp 5.1).Is.getD 0 := by
  obtain ⟨a, b, ha, hb⟩ := init_params_of_recognized mat temp 5.1 hmat
  constructor
  · rw [compute_some _ a b ha hb v, if_pos hv]
  · rw [compute_some _ a b ha hb _, if_neg (lt_irrefl _), ha]
    simp only [Option.getD_some, sub_self, mul_zero, neg_mul, neg_zero, sub_zero]
    have hvt : 0 ≤ vtOf temp := vtOf_nonneg temp htemp
    rcases hmat with hm | hm | hm | hm | hm <;> subst hm
    · rw [init_Si] at ha hb ⊢
      injection ha with ha
      injection hb with hb
      rw [← ha, ← hb]
      exact shockley_abs_le _ _ _ (by positivity) (by norm_num) (by positivity)
    · rw [init_Ge] at ha hb ⊢
      injection ha with ha
      injection hb with hb
      rw [← ha, ← hb]
      exact shockley_abs_le _ _ _ (by positivity) (by norm_num) (by positivity)
    · rw [init_RedLED] at ha hb ⊢
      injection ha with ha
      injection hb with hb
      rw [← ha, ← hb]
      exact shockley_abs_le _ _ _ (by positivity) (by norm_num) (by positivity)
    · rw [init_BlueLED] at ha hb ⊢
      injection ha with ha
      injection hb with hb
      rw [← ha, ← hb]
      exact shockley_abs_le _ _ _ (by positivity) (by norm_num) (by positivity)
    · rw [init_Zener] at ha hb ⊢
      injection ha with ha
      injection hb with hb
      rw [← ha, ← hb]
      exact shockley_abs_le _ _ _ (by positivity) (by norm_num) (by positivity)

/-- Witness for the amended C6 at material Si, temperature 27,
voltage -60. -/
theorem C6_witness :
    recognizedMaterial "Si" ∧ (-273.15 : ℝ) ≤ 27 ∧
    (-60 : ℝ) < (DiodePhysics.init "Si" 27 5.1).breakdown ∧
    ((DiodePhysics.init "Si" 27 5.1).compute (-60) =
       some (-(DiodePhysics.init "Si" 27 5.1).slope *
         (|(-60 : ℝ)| - |(DiodePhysics.init "Si" 27 5.1).breakdown|)) ∧
     |((DiodePhysics.init "Si" 27 5.1).compute
         (DiodePhysics.init "Si" 27 5.1).breakdown).getD 0 -
       (-(DiodePhysics.init "Si" 27 5.1).slope *
         (|(DiodePhysics.init "Si" 27 5.1).breakdown| -
          |(DiodePhysics.init "Si" 27 5.1).breakdown|))| ≤
       (DiodePhysics.init "Si" 27 5.1).Is.getD 0) :=
  ⟨by decide, by norm_num, by rw [init_Si]; norm_num,
   C6_amended_boundary "Si" 27 (-60) (by decide) (by norm_num)
     (by rw [init_Si]; norm_num)⟩

/-- In the forward region both evaluations take the Shockley branch,
which is monotone when the saturation current is nonnegative and n
times the thermal voltage is positive. -/
lemma compute_getD_forward_mono (d : DiodePhysics) (a b v1 v2 : ℝ)
    (ha : d.Is = some a) (hb : d.n = some b) (hsat : 0 ≤ a) (hnvt : 0 < b * d.vt)
    (hbd : d.breakdown < 0) (h1 : 0 < v1) (h12 : v1 ≤ v2) :
    (d.compute v1).getD 0 ≤ (d.compute v2).getD 0 := by
  rw [compute_some d a b ha hb v1, compute_some d a b ha hb v2]
  rw [if_neg (by linarith), if_neg (by linarith)]
  simp only [Option.getD_some]
  exact shockley_mono a (b * d.vt) v1 v2 hsat hnvt h12

/-- C7 counterexample: the claim quantifies over every temperature,
but at the unphysical temperature -274.15 (thermal voltage negative)
the Ge forward current strictly decreases from v = 0.001 to
v = 0.002, violating monotonicity. -/
theorem C7_counterexample :
    (0 : ℝ) < 0.001 ∧ (0.001 : ℝ) ≤ 0.002 ∧
    ((DiodePhysics.init "Ge" (-274.15) 5.1).compute 0.002).getD 0 <
      ((DiodePhysics.init "Ge" (-274.15) 5.1).compute 0.001).getD 0 := by
  refine ⟨by norm_num, by norm_num, ?_⟩
  rw [init_Ge]
  rw [compute_some _ (1e-6 * (2 : ℝ) ^ (((-274.15 : ℝ) - 27) / 10)) 1 rfl rfl 0.002,
    compute_some _ (1e-6 * (2 : ℝ) ^ (((-274.15 : ℝ) - 27) / 10)) 1 rfl rfl 0.001]
  rw [if_neg (by norm_num), if_neg (by norm_num)]
  simp only [Option.getD_some]
  have hclip2 : clip ((0.002 : ℝ) / (1 * vtOf (-274.15))) (-50) 50 =
      (0.002 : ℝ) / (1 * vtOf (-274.15)) := by
    apply clip_eq_self
    · unfold vtOf BOLTZMANN_K ELECTRON_Q
      norm_num
    · unfold vtOf BOLTZMANN_K ELECTRON_Q
      norm_num
  have hclip1 : clip ((0.001 : ℝ) / (1 * vtOf (-274.15))) (-50) 50 =
      (0.001 : ℝ) / (1 * vtOf (-274.15)) := by
    apply clip_eq_self
    · unfold vtOf BOLTZMANN_K ELECTRON_Q
      norm_num
    · unfold vtOf BOLTZMANN_K ELECTRON_Q
      norm_num
  rw [hclip1, hclip2]
  have hIs : (0 : ℝ) < 1e-6 * (2 : ℝ) ^ (((-274.15 : ℝ) - 27) / 10) := by positivity
  apply mul_lt_mul_of_pos_left _ hIs
  apply sub_lt_sub_right
  apply Real.exp_lt_exp.mpr
  unfold vtOf BOLTZMANN_K ELECTRON_Q
  norm_num

/-- C7 amended: for Si, Ge, RedLED and BlueLED at any temperature
strictly above absolute zero (-273.15), evaluate is monotonically
non-decreasing in voltage over the forward region 0 < v1 ≤ v2. -/
theorem C7_amended_forward_monotone (mat : String) (temp v1 v2 : ℝ)
    (hmat : mat = "Si" ∨ mat = "Ge" ∨ mat = "RedLED" ∨ mat = "BlueLED")
    (htemp : -273.15 < temp) (h1 : 0 < v1) (h12 : v1 ≤ v2) :
    ((DiodePhysics.init mat temp 5.1).compute v1).getD 0 ≤
      ((DiodePhysics.init mat temp 5.1).compute v2).getD 0 := by
  have hvt : 0 < vtOf temp := vtOf_pos temp htemp
  rcases hmat with hm | hm | hm | hm <;> subst hm
  · refine compute_getD_forward_mono _ _ 1.5 v1 v2 (by rw [init_Si]) (by rw [init_Si])
      (by positivity) ?_ ?_ h1 h12
    · rw [init_Si]
      exact mul_pos (by norm_num) hvt
    · rw [init_Si]
      norm_num
  · refine compute_getD_forward_mono _ _ 1 v1 v2 (by rw [init_Ge]) (by rw [init_Ge])
      (by positivity) ?_ ?_ h1 h12
    · rw [init_Ge]
      exact mul_pos (by norm_num) hvt
    · rw [init_Ge]
      norm_num
  · refine compute_getD_forward_mono _ _ 2 v1 v2 (by rw [init_RedLED]) (by rw [init_RedLED])
      (by norm_num) ?_ ?_ h1 h12
    · rw [init_RedLED]
      exact mul_pos (by norm_num) hvt
    · rw [init_RedLED]
      norm_num
  · refine compute_getD_forward_mono _ _ 3.5 v1 v2 (by rw [init_BlueLED]) (by rw [init_BlueLED])
      (by norm_num) ?_ ?_ h1 h12
    · rw [init_BlueLED]
      exact mul_pos (by norm_num) hvt
    · rw [init_BlueLED]
      norm_num

/-- Witness for the amended C7 at material Si, temperature 27,
voltages 0.5 and 0.7. -/
theorem C7_witness :
    ("Si" = "Si" ∨ "Si" = "Ge" ∨ "Si" = "RedLED" ∨ "Si" = "BlueLED") ∧
    (-273.15 : ℝ) < 27 ∧ (0 : ℝ) < 0.5 ∧ (0.5 : ℝ) ≤ 0.7 ∧
    ((DiodePhysics.init "Si" 27 5.1).compute 0.5).getD 0 ≤
      ((DiodePhysics.init "Si" 27 5.1).compute 0.7).getD 0 :=
  ⟨Or.inl rfl, by norm_num, by norm_num, by norm_num,
   C7_amended_forward_monotone "Si" 27 0.5 0.7 (Or.inl rfl) (by norm_num)
     (by norm_num) (by norm_num)⟩

end Hacksphere
